import Mathlib

/-!
Verification of the polling / state-reconciliation layer of the assessment
front end.  The definitions below are shallow embeddings of the JavaScript
source: the follow-up component revision at src/unnamed/part_001 (header
comment names it src/components/FollowupQuestions.js), the recommendations
page at src/frontend/src/pages/RecommendationsPage.js (the useCallback
revision, lines 1-161), and the API wrapper at
src/frontend/src/services/api.js.  JavaScript strings are modelled as Lean
strings; the string operations used by the source (trim, the default sort
comparator, join) are given explicit executable definitions over the
character list so that concrete instances evaluate inside the kernel.
-/

/-- Embedding of the JavaScript string trim operation: drop leading and
trailing whitespace characters.  On the ASCII inputs appearing in this
development this agrees with String.prototype.trim. -/
def jsTrim (s : String) : String :=
  ⟨((s.data.dropWhile Char.isWhitespace).reverse.dropWhile Char.isWhitespace).reverse⟩

/-- Lexicographic comparison of character lists by code point, the order the
default JavaScript Array.prototype.sort comparator uses on strings. -/
def charListLe : List Char → List Char → Bool
  | [], _ => true
  | _ :: _, [] => false
  | a :: as, b :: bs => if a = b then charListLe as bs else decide (a < b)

/-- String comparison used when sorting question identifiers. -/
def strLe (a b : String) : Bool := charListLe a.data b.data

/-- Insertion step of the sort used to model Array.prototype.sort on the
identifier lists. -/
def insertStr (a : String) : List String → List String
  | [] => [a]
  | b :: l => if strLe a b then a :: b :: l else b :: insertStr a l

/-- Sorting a list of strings in code point order, modelling the default
Array.prototype.sort on the question identifier arrays. -/
def sortStrings : List String → List String
  | [] => []
  | a :: l => insertStr a (sortStrings l)

/-- Embedding of Array.prototype.join with separator comma. -/
def joinComma : List String → String
  | [] => ""
  | [a] => a
  | a :: b :: l => a ++ "," ++ joinComma (b :: l)

/-- Embedding of the JavaScript truthiness fallback a or-else b for strings:
the empty string is falsy, every other string is truthy. -/
def jsOr (a b : String) : String := if a = "" then b else a

/-- Variant-defining optional field arrays of a question record
(additional_fields in the source).  A missing array in JavaScript is read
through the or-else-empty-list idiom, so absence is modelled by the empty
list. -/
structure AdditionalFields where
  answer_options : List String := []
  multiple_correct_answer_options : List String := []
  subjective_answer : List String := []
deriving DecidableEq

/-- Question record as consumed by the follow-up component. -/
structure Question where
  question_id : String
  question : String := ""
  category : String := ""
  subcategory : String := ""
  additional_fields : AdditionalFields := {}
deriving DecidableEq

/-- Value stored in the answers map for one question: a plain string for the
single-select and free-text variants, or the structured pair of selected
values and free-text sibling for the multi-select variant. -/
inductive AnswerEntry where
  | str (s : String)
  | multiSel (values : List String) (subjective_value : String)
deriving DecidableEq

/-- The answers object of the component, keyed by question identifier.  A
key absent from the list corresponds to an undefined property in
JavaScript; lookup finds the first binding, matching property access. -/
def AnswersMap := List (String × AnswerEntry)
deriving DecidableEq

/-- Local state of the follow-up component touched by the fetch and submit
logic: the followupQuestions list, the answers map and the user-facing
error string. -/
structure ComponentState where
  followupQuestions : List Question
  answers : List (String × AnswerEntry)
  error : String
deriving DecidableEq

/-- Sorted comma-joined key of a question list: map each question to its
question_id, sort, then join with a comma separator, as computed on lines
61-62 of fetchAndSetQuestions in src/unnamed/part_001. -/
def questionIdsKey (qs : List Question) : String :=
  joinComma (sortStrings (qs.map Question.question_id))

/-- Empty answer value chosen for a newly arrived question
(src/unnamed/part_001 lines 70-74): the structured empty pair when the
question has multi-select options, the empty string otherwise. -/
def emptyAnswerFor (q : Question) : AnswerEntry :=
  if q.additional_fields.multiple_correct_answer_options.length > 0 then
    .multiSel [] ""
  else
    .str ""

/-- The forEach loop of setAnswers inside fetchAndSetQuestions
(src/unnamed/part_001 lines 66-78): walk the fetched data and add an empty
entry for every question identifier not already present; existing bindings
are never touched. -/
def initAnswers (acc : List (String × AnswerEntry)) :
    List Question → List (String × AnswerEntry)
  | [] => acc
  | q :: rest =>
      if (acc.lookup q.question_id).isSome then
        initAnswers acc rest
      else
        initAnswers (acc ++ [(q.question_id, emptyAnswerFor q)]) rest

/-- One reconciliation step of fetchAndSetQuestions (src/unnamed/part_001
lines 50-83) applied to the state, given the response data of
getFollowupQuestions: none models a null or undefined body (the list is
reset to empty, answers untouched), some d models a received list, which
replaces the local list and extends the answers map only when the sorted
joined identifier key differs from the current one. -/
def fetchAndSetQuestions (st : ComponentState) (data : Option (List Question)) :
    ComponentState :=
  match data with
  | none =>
      ⟨if st.followupQuestions.length = 0 then st.followupQuestions else [],
       st.answers, st.error⟩
  | some d =>
      if questionIdsKey st.followupQuestions ≠ questionIdsKey d then
        ⟨d, initAnswers st.answers d, st.error⟩
      else
        st

/-- Iterated fetch cycles: fold fetchAndSetQuestions over a sequence of
responses. -/
def runFetches (st : ComponentState) : List (Option (List Question)) → ComponentState
  | [] => st
  | d :: rest => runFetches (fetchAndSetQuestions st d) rest

lemma lookup_append_of_some {β : Type} (k : String) :
    ∀ (l₁ l₂ : List (String × β)) (v : β),
      l₁.lookup k = some v → (l₁ ++ l₂).lookup k = some v := by
  intro l₁ l₂ v h
  induction l₁ with
  | nil => simp [List.lookup] at h
  | cons p t ih =>
      obtain ⟨a, b⟩ := p
      simp only [List.cons_append, List.lookup] at h ⊢
      cases hk : (k == a) with
      | true => simpa [hk] using h
      | false =>
          rw [hk] at h
          simpa [hk] using ih h

lemma lookup_append_of_none {β : Type} (k : String) :
    ∀ (l₁ l₂ : List (String × β)),
      l₁.lookup k = none → (l₁ ++ l₂).lookup k = l₂.lookup k := by
  intro l₁ l₂ h
  induction l₁ with
  | nil => simp
  | cons p t ih =>
      obtain ⟨a, b⟩ := p
      simp only [List.lookup] at h
      cases hk : (k == a) with
      | true => rw [hk] at h; simp at h
      | false =>
          rw [hk] at h
          simp only [List.cons_append, List.lookup, hk]
          exact ih h

lemma initAnswers_lookup_some (k : String) (v : AnswerEntry) :
    ∀ (d : List Question) (acc : List (String × AnswerEntry)),
      acc.lookup k = some v → (initAnswers acc d).lookup k = some v := by
  intro d
  induction d with
  | nil => intro acc h; simpa [initAnswers] using h
  | cons q rest ih =>
      intro acc h
      by_cases hq : (acc.lookup q.question_id).isSome
      · simpa [initAnswers, hq] using ih acc h
      · simp only [initAnswers, hq, if_false]
        exact ih _ (lookup_append_of_some k acc _ v h)

lemma initAnswers_lookup_none (k : String) :
    ∀ (d : List Question) (acc : List (String × AnswerEntry)),
      acc.lookup k = none →
      ∀ w, (initAnswers acc d).lookup k = some w →
        ∃ q, q ∈ d ∧ q.question_id = k ∧ w = emptyAnswerFor q := by
  intro d
  induction d with
  | nil =>
      intro acc h w hw
      simp only [initAnswers] at hw
      rw [h] at hw; cases hw
  | cons q rest ih =>
      intro acc h w hw
      by_cases hq : (acc.lookup q.question_id).isSome
      · simp only [initAnswers, hq, if_true] at hw
        obtain ⟨q', hmem, hid, hval⟩ := ih acc h w hw
        exact ⟨q', List.mem_cons_of_mem _ hmem, hid, hval⟩
      · simp only [initAnswers] at hw
        rw [if_neg hq] at hw
        by_cases hk : k = q.question_id
        · have hbase : (acc ++ [(q.question_id, emptyAnswerFor q)]).lookup k
              = some (emptyAnswerFor q) := by
            rw [lookup_append_of_none k acc _ h]
            simp [List.lookup, hk]
          have := initAnswers_lookup_some k (emptyAnswerFor q) rest _ hbase
          rw [this] at hw
          exact ⟨q, List.mem_cons_self q rest, hk.symm, (Option.some.inj hw).symm⟩
        · have hbeq : (k == q.question_id) = false := by simpa using hk
          have hbase : (acc ++ [(q.question_id, emptyAnswerFor q)]).lookup k = none := by
            rw [lookup_append_of_none k acc _ h]
            simp [List.lookup, hbeq]
          obtain ⟨q', hmem, hid, hval⟩ := ih _ hbase w hw
          exact ⟨q', List.mem_cons_of_mem _ hmem, hid, hval⟩

/-- Response body of GET /recommendations/status as consumed by the client:
a status string with optional url and error_message fields. -/
structure StatusResponse where
  status : String
  url : Option String := none
  error_message : Option String := none
deriving DecidableEq

/-- Transport-level outcome of one status request: a 2xx response with a
parsed body, an HTTP failure carrying the response status code, or a
network failure with no response at all. -/
inductive ApiOutcome where
  | ok (response : StatusResponse)
  | httpFailure (code : Nat) (message : String)
  | networkFailure (message : String)
deriving DecidableEq

/-- What the getRecommendationsStatus wrapper delivers to its caller: a
successful return value, or a thrown exception. -/
inductive ApiResult where
  | success (response : StatusResponse)
  | thrown (message : String)
deriving DecidableEq

/-- Embedding of getRecommendationsStatus
(src/frontend/src/services/api.js lines 93-114): a 2xx response is passed
through; an HTTP failure whose status code is not 401 is swallowed and
returned as a successful result with status error and a fallback
error_message; a 401 or a network failure (no response object) is
re-thrown to the caller. -/
def getRecommendationsStatus : ApiOutcome → ApiResult
  | .ok r => .success r
  | .httpFailure code message =>
      if code ≠ 401 then
        .success ⟨"error", none, some (jsOr message "Failed to fetch status")⟩
      else
        .thrown message
  | .networkFailure message => .thrown message

/-- Observable events of one poll cycle, in the order they occur: the
status request is issued, the status request completes with a parsed
result, the unknown-status warning is logged, the secondary questions
fetch runs, navigation to the recommendations view fires, and a next
cycle is scheduled via setTimeout. -/
inductive PollEvent where
  | statusRequest
  | statusComplete
  | logUnknown
  | fetchQuestions
  | navigate
  | schedule
deriving DecidableEq

/-- Continue statuses of the follow-up poller (src/unnamed/part_001 lines
108-110): pipeline_running, session_created and started. -/
def isContinueStatus (s : String) : Bool :=
  s == "pipeline_running" || s == "session_created" || s == "started"

/-- Terminal statuses of the follow-up poller (src/unnamed/part_001 lines
115-118): ready, error, generating_report and not_found. -/
def isFollowupTerminal (s : String) : Bool :=
  s == "ready" || s == "error" || s == "generating_report" || s == "not_found"

/-- Final statuses of the recommendations page poller
(src/frontend/src/pages/RecommendationsPage.js lines 6-10 and 42): ready,
error and not_found. -/
def isRecommendationsFinal (s : String) : Bool :=
  s == "ready" || s == "error" || s == "not_found"

/-- Event trace of one cycle of pollData (src/unnamed/part_001 lines
95-146).  A thrown status request is caught, shouldStopPolling stays
false, and the finally block schedules the next cycle.  On a successful
result: a continue status awaits the questions fetch and then schedules;
a terminal status sets shouldStopPolling and navigates, so the finally
block schedules nothing; any other status logs a warning, still fetches,
and schedules. -/
def pollDataCycle (outcome : ApiOutcome) : List PollEvent :=
  match getRecommendationsStatus outcome with
  | .thrown _ => [.statusRequest, .schedule]
  | .success r =>
      if isContinueStatus r.status then
        [.statusRequest, .statusComplete, .fetchQuestions, .schedule]
      else if isFollowupTerminal r.status then
        [.statusRequest, .statusComplete, .navigate]
      else
        [.statusRequest, .statusComplete, .logUnknown, .fetchQuestions, .schedule]

/-- Event trace of one cycle of checkStatus
(src/frontend/src/pages/RecommendationsPage.js lines 23-67).  A thrown
status request is caught and sets shouldStopPolling, so nothing is
scheduled.  On a successful result, a final status stops the polling and
any other status schedules the next cycle. -/
def checkStatusCycle (outcome : ApiOutcome) : List PollEvent :=
  match getRecommendationsStatus outcome with
  | .thrown _ => [.statusRequest]
  | .success r =>
      if isRecommendationsFinal r.status then
        [.statusRequest, .statusComplete]
      else
        [.statusRequest, .statusComplete, .schedule]

/-- Trace of a recursive setTimeout poller over a sequence of transport
outcomes: each cycle runs, and the next outcome is consumed only if the
cycle scheduled a next cycle. -/
def runPoller (cycle : ApiOutcome → List PollEvent) :
    List ApiOutcome → List PollEvent
  | [] => []
  | o :: rest =>
      if PollEvent.schedule ∈ cycle o then
        cycle o ++ runPoller cycle rest
      else
        cycle o

/-- Multi-cycle trace of the follow-up poller. -/
def runPollData : List ApiOutcome → List PollEvent :=
  runPoller pollDataCycle

/-- Multi-cycle trace of the recommendations page poller. -/
def runCheckStatus : List ApiOutcome → List PollEvent :=
  runPoller checkStatusCycle

/-- Whether one cycle of the follow-up poller observes a terminal status:
the status request returns successfully and the status is in the terminal
set. -/
def pollDataSeesTerminal (outcome : ApiOutcome) : Bool :=
  match getRecommendationsStatus outcome with
  | .success r => isFollowupTerminal r.status
  | .thrown _ => false

/-- Whether one cycle of the recommendations poller observes a final
status. -/
def checkStatusSeesFinal (outcome : ApiOutcome) : Bool :=
  match getRecommendationsStatus outcome with
  | .success r => isRecommendationsFinal r.status
  | .thrown _ => false

/-- Embedding of one cycle of checkPipelineStatus from the earlier
follow-up revision at src/frontend/src/components/FollowupQuestions.js
(lines 87-124): a successful status result is stored as the tracked
pipelineState and, when it lies in the terminal set ready, error,
generating_report or not_found, the polling intervals are cleared and
navigation fires; a thrown failure is only logged and leaves the tracked
state untouched.  This cycle never triggers the questions fetch itself:
fetching runs on its own interval.  The result pairs the new tracked
pipelineState with whether the cycle cleared the intervals and
navigated. -/
def checkPipelineStatus (pipelineState : String) (outcome : ApiOutcome) :
    String × Bool :=
  match getRecommendationsStatus outcome with
  | .thrown _ => (pipelineState, false)
  | .success r => (r.status, isFollowupTerminal r.status)

/-- Embedding of the guard on line 37 of fetchAndSetQuestions in the same
earlier revision: the fetch body runs only when the tracked pipelineState
equals pipeline_running; for every other stored status the function
returns at once and no questions request is issued. -/
def legacyFetchRuns (pipelineState : String) : Bool :=
  pipelineState == "pipeline_running"

/-- Derived answer object of one payload record (the answer field built by
handleSubmit): the empty object, a single value object, or the
values-plus-subjective object of the multi-select variant. -/
inductive AnswerPayload where
  | emptyObj
  | value (v : String)
  | multi (values : List String) (subjective_value : String)
deriving DecidableEq

/-- Embedding of the per-question answer construction inside handleSubmit
(src/unnamed/part_001 lines 226-253).  The multi-select variant emits the
selections and trimmed free-text sibling when either is non-empty, the
explicit empty-selection object for a pure-other question, and the empty
object otherwise.  The free-text variant always emits a value object,
trimmed, empty when the stored answer is missing, not a string, or blank.
The single-select variant emits the value only when it is a non-empty
string. -/
def buildAnswerPayload (q : Question) (answerState : Option AnswerEntry) :
    AnswerPayload :=
  let multiOptions := q.additional_fields.multiple_correct_answer_options
  let subjectiveAnswerField := q.additional_fields.subjective_answer
  if multiOptions.length > 0 then
    let currentValues := match answerState with
      | some (.multiSel vs _) => vs
      | _ => []
    let currentSubjective := match answerState with
      | some (.multiSel _ sv) => sv
      | _ => ""
    if currentValues.length > 0 ∨ jsTrim currentSubjective ≠ "" then
      .multi currentValues (jsTrim currentSubjective)
    else if multiOptions.contains "" ∧ multiOptions.length = 1 then
      .multi [] ""
    else
      .emptyObj
  else if subjectiveAnswerField.length > 0 then
    match answerState with
    | some (.str s) => if jsTrim s ≠ "" then .value (jsTrim s) else .value ""
    | _ => .value ""
  else
    match answerState with
    | some (.str s) => if s ≠ "" then .value s else .emptyObj
    | _ => .emptyObj

/-- Wire record of one submitted answer (src/unnamed/part_001 lines
254-261). -/
structure PayloadItem where
  session_id : String
  question_id : String
  question : String
  category : String
  subcategory : String
  answer : AnswerPayload
deriving DecidableEq

/-- The payload array built by handleSubmit: one record per known
question, with the derived answer object. -/
def buildPayload (sessionId : String) (questions : List Question)
    (answers : List (String × AnswerEntry)) : List PayloadItem :=
  questions.map fun q =>
    ⟨sessionId, q.question_id, q.question, q.category, q.subcategory,
     buildAnswerPayload q (answers.lookup q.question_id)⟩

/-- The filter on line 264 of src/unnamed/part_001: keep the records whose
answer object has at least one key, which is exactly the records whose
answer is not the empty object. -/
def filterPayload (payload : List PayloadItem) : List PayloadItem :=
  payload.filter fun item => item.answer ≠ .emptyObj

/-- Result of the submitFollowupResponses network call: success, or a
rejection carrying the optional backend detail field and the error
message.  Absent fields are the empty string, which is falsy in the
JavaScript fallback chain. -/
inductive SubmitApi where
  | success
  | failure (detail : String) (message : String)
deriving DecidableEq

/-- Observable outcome of one handleSubmit invocation: the local
validation alert with no network call, a successful submission of the
filtered payload, or a failed submission with the surfaced error
message. -/
inductive SubmitOutcome where
  | validationAlert
  | submittedOk (sent : List PayloadItem)
  | submitFailed (sent : List PayloadItem) (errorMsg : String)
deriving DecidableEq

/-- Embedding of handleSubmit of the revision at src/unnamed/part_001
(lines 213-295).  The error state is cleared on entry.  If the filtered
payload is empty, the validation alert fires and no network call is made.
Otherwise the payload is submitted: on success the question list and
answers map are cleared; on failure the error message is the backend
detail, else the error message field, else the generic fallback, and the
question list and answers map are left untouched. -/
def handleSubmit (sessionId : String) (st : ComponentState) (api : SubmitApi) :
    SubmitOutcome × ComponentState :=
  let filteredPayload :=
    filterPayload (buildPayload sessionId st.followupQuestions st.answers)
  if filteredPayload.length = 0 then
    (.validationAlert, ⟨st.followupQuestions, st.answers, ""⟩)
  else
    match api with
    | .success => (.submittedOk filteredPayload, ⟨[], [], ""⟩)
    | .failure detail message =>
        let errorMsg := jsOr detail (jsOr message "Unknown error")
        (.submitFailed filteredPayload errorMsg,
         ⟨st.followupQuestions, st.answers,
          "Submission failed: " ++ errorMsg ++ ". Please try again."⟩)

/-- Embedding of handleSubmit of the earlier revision at
src/frontend/src/components/FollowupQuestions.js (lines 192-257).  The
payload construction, the validation guard and the failure path are the
same; the only difference is the success path, which leaves the question
list and the answers map unchanged (clearing is left to the polling
cycle, see the comment on line 245-246 of that file). -/
def handleSubmitLegacy (sessionId : String) (st : ComponentState)
    (api : SubmitApi) : SubmitOutcome × ComponentState :=
  let filteredPayload :=
    filterPayload (buildPayload sessionId st.followupQuestions st.answers)
  if filteredPayload.length = 0 then
    (.validationAlert, ⟨st.followupQuestions, st.answers, ""⟩)
  else
    match api with
    | .success =>
        (.submittedOk filteredPayload, ⟨st.followupQuestions, st.answers, ""⟩)
    | .failure detail message =>
        let errorMsg := jsOr detail (jsOr message "Unknown error")
        (.submitFailed filteredPayload errorMsg,
         ⟨st.followupQuestions, st.answers,
          "Submission failed: " ++ errorMsg ++ ". Please try again."⟩)

/-- Sample pure free-text question: no multi-select options, a non-empty
subjective_answer marker array. -/
def qFreeText : Question :=
  ⟨"q_free", "Describe your setup", "energy", "hardware", ⟨[], [], ["subjective"]⟩⟩

/-- Sample single-select question with two options and no free-text
field. -/
def qSingleSelect : Question :=
  ⟨"q_single", "Pick one", "energy", "hardware", ⟨["A", "B"], [], []⟩⟩

/-- Sample multi-select question with options A and B plus the empty
string marking the free-text sibling. -/
def qMulti : Question :=
  ⟨"q_multi", "Pick all", "energy", "hardware", ⟨[], ["A", "B", ""], []⟩⟩

/-- Sample question whose identifier contains a comma. -/
def qCommaId : Question := ⟨"a,b", "Comma id", "c", "s", ⟨[], [], []⟩⟩

/-- Sample question with identifier a. -/
def qIdA : Question := ⟨"a", "Plain a", "c", "s", ⟨[], [], []⟩⟩

/-- Sample question with identifier b. -/
def qIdB : Question := ⟨"b", "Plain b", "c", "s", ⟨[], [], []⟩⟩

lemma terminal_not_continue (s : String) (h : isFollowupTerminal s = true) :
    isContinueStatus s = false := by
  simp only [isFollowupTerminal, Bool.or_eq_true, beq_iff_eq] at h
  rcases h with ((rfl | rfl) | rfl) | rfl <;> rfl

lemma pollData_no_schedule_of_terminal (o : ApiOutcome)
    (h : pollDataSeesTerminal o = true) :
    PollEvent.schedule ∉ pollDataCycle o := by
  unfold pollDataSeesTerminal at h
  unfold pollDataCycle
  cases hg : getRecommendationsStatus o with
  | thrown m => rw [hg] at h; exact Bool.noConfusion h
  | success r =>
      rw [hg] at h
      have ht : isFollowupTerminal r.status = true := h
      simp [terminal_not_continue r.status ht, ht]

lemma checkStatus_no_schedule_of_final (o : ApiOutcome)
    (h : checkStatusSeesFinal o = true) :
    PollEvent.schedule ∉ checkStatusCycle o := by
  unfold checkStatusSeesFinal at h
  unfold checkStatusCycle
  cases hg : getRecommendationsStatus o with
  | thrown m => rw [hg] at h; exact Bool.noConfusion h
  | success r =>
      rw [hg] at h
      have ht : isRecommendationsFinal r.status = true := h
      simp [ht]

lemma runPoller_cutoff (cycle : ApiOutcome → List PollEvent) (o : ApiOutcome)
    (hno : PollEvent.schedule ∉ cycle o) (pre : List ApiOutcome) :
    ∀ rest : List ApiOutcome,
      runPoller cycle (pre ++ o :: rest) = runPoller cycle (pre ++ [o]) := by
  induction pre with
  | nil =>
      intro rest
      simp only [List.nil_append, runPoller, if_neg hno]
  | cons p pre ih =>
      intro rest
      simp only [List.cons_append, runPoller]
      by_cases hp : PollEvent.schedule ∈ cycle p
      · rw [if_pos hp, if_pos hp]
        exact congrArg (fun l => cycle p ++ l) (ih rest)
      · rw [if_neg hp, if_neg hp]

/-- C1: once a poll cycle of the follow-up poller (pollData) or of the
recommendations poller (checkStatus) observes a terminal status for its
poller (ready, error, generating_report or not_found for pollData; ready,
error or not_found for checkStatus), that cycle schedules no next cycle,
and the whole trace equals the trace of the run truncated right after the
terminal cycle, so no further status requests are ever issued. -/
theorem c1_terminal_stops_polling :
    (∀ o : ApiOutcome, pollDataSeesTerminal o = true →
        PollEvent.schedule ∉ pollDataCycle o) ∧
    (∀ (pre rest : List ApiOutcome) (o : ApiOutcome),
        pollDataSeesTerminal o = true →
        runPollData (pre ++ o :: rest) = runPollData (pre ++ [o])) ∧
    (∀ o : ApiOutcome, checkStatusSeesFinal o = true →
        PollEvent.schedule ∉ checkStatusCycle o) ∧
    (∀ (pre rest : List ApiOutcome) (o : ApiOutcome),
        checkStatusSeesFinal o = true →
        runCheckStatus (pre ++ o :: rest) = runCheckStatus (pre ++ [o])) := by
  refine ⟨pollData_no_schedule_of_terminal, ?_,
          checkStatus_no_schedule_of_final, ?_⟩
  · intro pre rest o h
    exact runPoller_cutoff pollDataCycle o
      (pollData_no_schedule_of_terminal o h) pre rest
  · intro pre rest o h
    exact runPoller_cutoff checkStatusCycle o
      (checkStatus_no_schedule_of_final o h) pre rest

/-- Witness for C1 at concrete inputs: a ready result stops pollData after
one prior running cycle even when more outcomes would be available, and a
not_found result stops checkStatus likewise. -/
theorem c1_witness :
    PollEvent.schedule ∉ pollDataCycle (.ok ⟨"ready", none, none⟩) ∧
    runPollData ([ApiOutcome.ok ⟨"pipeline_running", none, none⟩] ++
        ApiOutcome.ok ⟨"ready", none, none⟩ ::
          [ApiOutcome.ok ⟨"pipeline_running", none, none⟩]) =
      runPollData ([ApiOutcome.ok ⟨"pipeline_running", none, none⟩] ++
        [ApiOutcome.ok ⟨"ready", none, none⟩]) ∧
    PollEvent.schedule ∉ checkStatusCycle (.ok ⟨"not_found", none, none⟩) ∧
    runCheckStatus ([] ++ ApiOutcome.ok ⟨"not_found", none, none⟩ ::
        [ApiOutcome.networkFailure "offline"]) =
      runCheckStatus ([] ++ [ApiOutcome.ok ⟨"not_found", none, none⟩]) :=
  ⟨c1_terminal_stops_polling.1 _ (by decide),
   c1_terminal_stops_polling.2.1 _ _ _ (by decide),
   c1_terminal_stops_polling.2.2.1 _ (by decide),
   c1_terminal_stops_polling.2.2.2 _ _ _ (by decide)⟩

lemma fetch_preserves_present_answers (k : String) (v : AnswerEntry)
    (st : ComponentState) (data : Option (List Question))
    (h : st.answers.lookup k = some v) :
    (fetchAndSetQuestions st data).answers.lookup k = some v := by
  cases data with
  | none => simpa [fetchAndSetQuestions] using h
  | some d =>
      simp only [fetchAndSetQuestions]
      by_cases hid : questionIdsKey st.followupQuestions ≠ questionIdsKey d
      · rw [if_pos hid]
        exact initAnswers_lookup_some k v d st.answers h
      · rw [if_neg hid]
        exact h

/-- C2: in every fetch-merge cycle, an answers entry whose key is already
present keeps its value unchanged; an entry appears for a previously
absent key only when the fetched data contains a question with that
identifier, and then it is initialized to the empty value of that
question variant; consequently a present entry survives any sequence of
fetch cycles unchanged. -/
theorem c2_answer_entries_stable (st : ComponentState)
    (d : List Question) (k : String) :
    (∀ v, st.answers.lookup k = some v →
        (fetchAndSetQuestions st (some d)).answers.lookup k = some v) ∧
    (st.answers.lookup k = none →
        ∀ w, (fetchAndSetQuestions st (some d)).answers.lookup k = some w →
          ∃ q, q ∈ d ∧ q.question_id = k ∧ w = emptyAnswerFor q) ∧
    (∀ v, st.answers.lookup k = some v →
        ∀ responses : List (Option (List Question)),
          (runFetches st responses).answers.lookup k = some v) := by
  refine ⟨fun v h => fetch_preserves_present_answers k v st (some d) h,
          ?_, ?_⟩
  · intro h w hw
    simp only [fetchAndSetQuestions] at hw
    by_cases hid : questionIdsKey st.followupQuestions ≠ questionIdsKey d
    · rw [if_pos hid] at hw
      exact initAnswers_lookup_none k d st.answers h w hw
    · rw [if_neg hid] at hw
      rw [h] at hw
      cases hw
  · intro v h responses
    induction responses generalizing st with
    | nil => simpa [runFetches] using h
    | cons r rest ih =>
        exact ih (fetchAndSetQuestions st r)
          (fetch_preserves_present_answers k v st r h)

/-- Witness for C2 at a concrete input: an in-progress free-text draft for
q_free survives a fetch that delivers q_free together with a new
multi-select question, and the new question gets the structured empty
entry. -/
theorem c2_witness :
    (fetchAndSetQuestions
        ⟨[qFreeText], [("q_free", .str "my draft")], ""⟩
        (some [qFreeText, qMulti])).answers.lookup "q_free" =
      some (.str "my draft") ∧
    (fetchAndSetQuestions
        ⟨[qFreeText], [("q_free", .str "my draft")], ""⟩
        (some [qFreeText, qMulti])).answers.lookup "q_multi" =
      some (.multiSel [] "") :=
  ⟨(c2_answer_entries_stable
      ⟨[qFreeText], [("q_free", .str "my draft")], ""⟩
      [qFreeText, qMulti] "q_free").1 (.str "my draft") (by decide),
   by decide⟩

/-- C3 fails on the code as stated.  Counterexample: a pure network error
(no HTTP response) makes the recommendations poller checkStatus stop
polling entirely, and a non-auth HTTP failure (status code 500) is turned
into a successful terminal error result by getRecommendationsStatus, upon
which the follow-up poller pollData stops and navigates instead of
retrying. -/
theorem c3_counterexample :
    PollEvent.schedule ∉ checkStatusCycle (.networkFailure "Network Error") ∧
    PollEvent.schedule ∉
      pollDataCycle (.httpFailure 500 "Request failed with status code 500") ∧
    PollEvent.navigate ∈
      pollDataCycle (.httpFailure 500 "Request failed with status code 500") := by
  decide

/-- C3 amended: only a thrown transport failure (a network error with no
response, the only failure getRecommendationsStatus re-throws besides
401) leaves the follow-up poller pollData running: it schedules the next
cycle and neither fetches nor navigates.  A non-auth HTTP failure is
converted by getRecommendationsStatus into a successful result with
terminal status error, which makes pollData stop and navigate; and the
recommendations poller checkStatus stops on every thrown transport
failure. -/
theorem c3_amended_transport_failure :
    (∀ message : String,
        pollDataCycle (.networkFailure message) =
          [.statusRequest, .schedule]) ∧
    (∀ (code : Nat) (message : String), code ≠ 401 →
        getRecommendationsStatus (.httpFailure code message) =
          .success ⟨"error", none, some (jsOr message "Failed to fetch status")⟩ ∧
        pollDataCycle (.httpFailure code message) =
          [.statusRequest, .statusComplete, .navigate]) ∧
    (∀ message : String,
        checkStatusCycle (.networkFailure message) = [.statusRequest]) := by
  refine ⟨fun message => rfl, ?_, fun message => rfl⟩
  intro code message h
  have hg : getRecommendationsStatus (.httpFailure code message) =
      .success ⟨"error", none, some (jsOr message "Failed to fetch status")⟩ := by
    simp only [getRecommendationsStatus]
    rw [if_pos h]
  refine ⟨hg, ?_⟩
  simp only [pollDataCycle, hg]
  rfl

/-- Witness for C3 amended at concrete inputs. -/
theorem c3_witness :
    pollDataCycle (.networkFailure "Network Error") =
      [.statusRequest, .schedule] ∧
    getRecommendationsStatus (.httpFailure 500 "Internal Server Error") =
      .success ⟨"error", none, some "Internal Server Error"⟩ ∧
    pollDataCycle (.httpFailure 500 "Internal Server Error") =
      [.statusRequest, .statusComplete, .navigate] ∧
    checkStatusCycle (.networkFailure "Network Error") = [.statusRequest] :=
  ⟨c3_amended_transport_failure.1 "Network Error",
   ((c3_amended_transport_failure.2.1 500 "Internal Server Error"
      (by decide)).1).trans (by decide),
   (c3_amended_transport_failure.2.1 500 "Internal Server Error"
      (by decide)).2,
   c3_amended_transport_failure.2.2 "Network Error"⟩

/-- C4: in a poll cycle of the follow-up poller whose status check returns
session_created, started or pipeline_running, the trace is exactly status
request, status completion, the secondary questions fetch, and a single
rescheduling, in that order; and over the observed status sequence
pipeline_running, pipeline_running, ready the full trace contains exactly
two secondary fetches, both before the navigation that ends it. -/
theorem c4_continue_cycle_fetches_then_reschedules :
    (∀ r : StatusResponse, isContinueStatus r.status = true →
        pollDataCycle (.ok r) =
          [.statusRequest, .statusComplete, .fetchQuestions, .schedule]) ∧
    (runPollData
        [.ok ⟨"pipeline_running", none, none⟩,
         .ok ⟨"pipeline_running", none, none⟩,
         .ok ⟨"ready", none, none⟩] =
      [.statusRequest, .statusComplete, .fetchQuestions, .schedule,
       .statusRequest, .statusComplete, .fetchQuestions, .schedule,
       .statusRequest, .statusComplete, .navigate]) ∧
    ((runPollData
        [.ok ⟨"pipeline_running", none, none⟩,
         .ok ⟨"pipeline_running", none, none⟩,
         .ok ⟨"ready", none, none⟩]).count .fetchQuestions = 2) := by
  refine ⟨?_, by decide, by decide⟩
  intro r h
  simp only [pollDataCycle, getRecommendationsStatus]
  rw [if_pos h]

/-- Witness for C4 at a concrete continue status. -/
theorem c4_witness :
    pollDataCycle (.ok ⟨"session_created", none, none⟩) =
      [.statusRequest, .statusComplete, .fetchQuestions, .schedule] :=
  c4_continue_cycle_fetches_then_reschedules.1
    ⟨"session_created", none, none⟩ (by decide)

/-- C5 fails on the code as stated.  Counterexample: in the cited earlier
revision at src/frontend/src/components/FollowupQuestions.js, a
successful status check returning the unrecognized value warming_up
stores it as the tracked pipelineState, and under that stored state the
questions fetcher guard refuses to run, so the secondary questions fetch
is suppressed rather than still performed. -/
theorem c5_counterexample :
    (checkPipelineStatus "pipeline_running"
        (.ok ⟨"warming_up", none, none⟩)).1 = "warming_up" ∧
    legacyFetchRuns
      (checkPipelineStatus "pipeline_running"
        (.ok ⟨"warming_up", none, none⟩)).1 = false := by
  decide

/-- C5 amended: on a successful status result outside the recognized
seven-value set, the follow-up poller revision at src/unnamed/part_001
treats it as the continue case: the cycle logs the unknown status, still
runs the secondary questions fetch, schedules the next cycle, and does
not navigate.  In the earlier revision at
src/frontend/src/components/FollowupQuestions.js an unknown status
likewise neither stops the intervals nor navigates, but it becomes the
tracked pipelineState, under which the questions fetcher guard blocks
every secondary fetch until pipeline_running is next observed. -/
theorem c5_amended_unknown_status (r : StatusResponse)
    (hc : isContinueStatus r.status = false)
    (ht : isFollowupTerminal r.status = false) :
    pollDataCycle (.ok r) =
      [.statusRequest, .statusComplete, .logUnknown, .fetchQuestions,
       .schedule] ∧
    (∀ pipelineState : String,
        checkPipelineStatus pipelineState (.ok r) = (r.status, false)) ∧
    legacyFetchRuns r.status = false := by
  refine ⟨?_, ?_, ?_⟩
  · simp only [pollDataCycle, getRecommendationsStatus]
    rw [if_neg (by simp [hc]), if_neg (by simp [ht])]
  · intro pipelineState
    simp [checkPipelineStatus, getRecommendationsStatus, ht]
  · unfold legacyFetchRuns
    cases hb : r.status == "pipeline_running"
    · rfl
    · exfalso
      unfold isContinueStatus at hc
      rw [hb] at hc
      simp at hc

/-- Witness for C5 amended: the unrecognized status warming_up makes
pollData log, fetch and reschedule, while the earlier revision stores it
without navigating and its fetch guard shuts. -/
theorem c5_witness :
    pollDataCycle (.ok ⟨"warming_up", none, none⟩) =
      [.statusRequest, .statusComplete, .logUnknown, .fetchQuestions,
       .schedule] ∧
    checkPipelineStatus "pipeline_running" (.ok ⟨"warming_up", none, none⟩) =
      ("warming_up", false) ∧
    legacyFetchRuns "warming_up" = false :=
  ⟨(c5_amended_unknown_status ⟨"warming_up", none, none⟩ (by decide)
      (by decide)).1,
   (c5_amended_unknown_status ⟨"warming_up", none, none⟩ (by decide)
      (by decide)).2.1 "pipeline_running",
   (c5_amended_unknown_status ⟨"warming_up", none, none⟩ (by decide)
      (by decide)).2.2⟩

/-- C10: the order-insensitive comparison is literally the equality of the
sorted comma-joined identifier strings, so whenever the joined keys of
the current list and of the response coincide the fetcher leaves the
whole state, question list and answers map, unchanged; the witness
exhibits two genuinely different identifier sets, one containing the
comma-carrying identifier a comma b, that the comparison cannot tell
apart. -/
theorem c10_comma_join_collision (st : ComponentState) (d : List Question)
    (h : questionIdsKey st.followupQuestions = questionIdsKey d) :
    fetchAndSetQuestions st (some d) = st := by
  simp [fetchAndSetQuestions, h]

/-- Witness for C10: the single identifier a comma b and the identifier
pair a, b produce the same join key, the identifier lists differ, and the
fetch leaves the state unchanged, keeping the stale question list. -/
theorem c10_witness :
    questionIdsKey [qCommaId] = questionIdsKey [qIdA, qIdB] ∧
    [qCommaId].map Question.question_id ≠ [qIdA, qIdB].map Question.question_id ∧
    qIdB.question_id ∈ [qIdA, qIdB].map Question.question_id ∧
    qIdB.question_id ∉ [qCommaId].map Question.question_id ∧
    fetchAndSetQuestions ⟨[qCommaId], [("a,b", .str "stale")], ""⟩
        (some [qIdA, qIdB]) =
      ⟨[qCommaId], [("a,b", .str "stale")], ""⟩ :=
  ⟨by decide, by decide, by decide, by decide,
   c10_comma_join_collision ⟨[qCommaId], [("a,b", .str "stale")], ""⟩
     [qIdA, qIdB] (by decide)⟩

/-- C7 fails on the code as stated.  Counterexample: a pure free-text
question whose stored answer is a single blank (trimmed answer empty)
still produces a record whose answer object is the one-key object with
the empty value, and that record survives the non-empty-object filter, so
it is included in the outgoing payload. -/
theorem c7_counterexample :
    buildAnswerPayload qFreeText (some (.str " ")) = .value "" ∧
    filterPayload (buildPayload "s1" [qFreeText] [("q_free", .str " ")]) =
      [⟨"s1", "q_free", "Describe your setup", "energy", "hardware",
        .value ""⟩] := by
  decide

/-- C7 amended: for a pure free-text question the derived answer object is
always the one-key value object holding the trimmed answer string (the
empty string when the answer is blank, missing, or not a string), so in
particular the record is always kept by the non-empty-object filter, and
a non-blank answer is submitted trimmed. -/
theorem c7_amended_freetext_always_included (q : Question)
    (hm : q.additional_fields.multiple_correct_answer_options = [])
    (hs : q.additional_fields.subjective_answer ≠ []) (s : String) :
    buildAnswerPayload q (some (.str s)) = .value (jsTrim s) ∧
    buildAnswerPayload q (some (.str s)) ≠ .emptyObj ∧
    buildAnswerPayload q none = .value "" := by
  have hlen : 0 < q.additional_fields.subjective_answer.length :=
    List.length_pos.mpr hs
  have h1 : buildAnswerPayload q (some (.str s)) = .value (jsTrim s) := by
    unfold buildAnswerPayload
    simp only [hm, List.length_nil, lt_irrefl, if_false, gt_iff_lt, hlen,
      if_true]
    by_cases hb : jsTrim s = ""
    · rw [if_neg (by simp [hb]), hb]
    · rw [if_pos hb]
  refine ⟨h1, ?_, ?_⟩
  · rw [h1]
    intro hcontra
    cases hcontra
  · unfold buildAnswerPayload
    simp only [hm, List.length_nil, lt_irrefl, if_false, gt_iff_lt, hlen,
      if_true]

/-- Witness for C7 amended: the answer hello-space is submitted as hello,
and a blank answer still yields the kept empty-value record. -/
theorem c7_witness :
    buildAnswerPayload qFreeText (some (.str "hello ")) = .value "hello" ∧
    buildAnswerPayload qFreeText (some (.str " ")) ≠ .emptyObj :=
  ⟨((c7_amended_freetext_always_included qFreeText (by decide) (by decide)
      "hello ").1).trans (by decide),
   (c7_amended_freetext_always_included qFreeText (by decide) (by decide)
      " ").2.1⟩

/-- C8: whenever every derived answer object of the built payload is the
empty object, the filtered payload is empty and handleSubmit returns the
validation alert without consulting the network at all (the outcome is
the same for every possible network result), leaving the question list
and answers map as they were. -/
theorem c8_empty_payload_blocks_submission (sessionId : String)
    (st : ComponentState) (api : SubmitApi)
    (h : ∀ item ∈ buildPayload sessionId st.followupQuestions st.answers,
        item.answer = AnswerPayload.emptyObj) :
    filterPayload (buildPayload sessionId st.followupQuestions st.answers) =
      [] ∧
    handleSubmit sessionId st api =
      (.validationAlert, ⟨st.followupQuestions, st.answers, ""⟩) := by
  have hfil :
      filterPayload (buildPayload sessionId st.followupQuestions st.answers) =
        [] := by
    unfold filterPayload
    refine List.filter_eq_nil_iff.mpr ?_
    intro a ha
    simp [h a ha]
  refine ⟨hfil, ?_⟩
  unfold handleSubmit
  rw [hfil]
  rfl

/-- Witness for C8: one unanswered single-select question yields an
all-empty payload, and submission is blocked with the alert regardless of
what the network would have answered. -/
theorem c8_witness :
    filterPayload (buildPayload "s1" [qSingleSelect] []) = [] ∧
    handleSubmit "s1" ⟨[qSingleSelect], [], ""⟩ .success =
      (.validationAlert, ⟨[qSingleSelect], [], ""⟩) :=
  c8_empty_payload_blocks_submission "s1" ⟨[qSingleSelect], [], ""⟩ .success
    (by decide)

/-- Sample answered state used by the submission claims: one single-select
question with the option A selected. -/
def stAnswered : ComponentState :=
  ⟨[qSingleSelect], [("q_single", .str "A")], ""⟩

/-- C9 fails on the code as stated.  Counterexample: in the revision at
src/frontend/src/components/FollowupQuestions.js, a successful submission
of the answered single-select state leaves the question list and the
answers map exactly as they were instead of clearing them (the revision
defers cleanup to the polling cycle). -/
theorem c9_counterexample :
    (handleSubmitLegacy "s1" stAnswered .success).2.followupQuestions =
      stAnswered.followupQuestions ∧
    (handleSubmitLegacy "s1" stAnswered .success).2.answers =
      stAnswered.answers ∧
    stAnswered.followupQuestions ≠ [] ∧
    stAnswered.answers ≠ [] ∧
    (handleSubmitLegacy "s1" stAnswered .success).1 =
      .submittedOk
        (filterPayload (buildPayload "s1" stAnswered.followupQuestions
          stAnswered.answers)) := by
  decide

/-- C9 amended: on a successful submission the revision at
src/unnamed/part_001 clears the local question list and answers map,
while the earlier revision at
src/frontend/src/components/FollowupQuestions.js leaves both unchanged;
on a failed submission both revisions surface the server-provided detail
message (falling back to the transport message, then to the generic
unknown-error text) and leave the question list and answers map exactly
as they were before the attempt, so the user can retry. -/
theorem c9_amended_submit_state_transitions :
    (∀ (sessionId : String) (st : ComponentState),
        filterPayload (buildPayload sessionId st.followupQuestions st.answers)
            ≠ [] →
        (handleSubmit sessionId st .success).2 = ⟨[], [], ""⟩ ∧
        (handleSubmitLegacy sessionId st .success).2 =
          ⟨st.followupQuestions, st.answers, ""⟩) ∧
    (∀ (sessionId : String) (st : ComponentState) (detail message : String),
        filterPayload (buildPayload sessionId st.followupQuestions st.answers)
            ≠ [] →
        (handleSubmit sessionId st (.failure detail message)).2 =
          ⟨st.followupQuestions, st.answers,
           "Submission failed: " ++ jsOr detail (jsOr message "Unknown error")
             ++ ". Please try again."⟩ ∧
        (handleSubmit sessionId st (.failure detail message)).1 =
          .submitFailed
            (filterPayload
              (buildPayload sessionId st.followupQuestions st.answers))
            (jsOr detail (jsOr message "Unknown error")) ∧
        (handleSubmitLegacy sessionId st (.failure detail message)).2 =
          ⟨st.followupQuestions, st.answers,
           "Submission failed: " ++ jsOr detail (jsOr message "Unknown error")
             ++ ". Please try again."⟩) := by
  constructor
  · intro sessionId st h
    have hlen : ¬ (filterPayload
        (buildPayload sessionId st.followupQuestions st.answers)).length = 0 := by
      simpa [List.length_eq_zero] using h
    constructor
    · unfold handleSubmit
      rw [if_neg hlen]
    · unfold handleSubmitLegacy
      rw [if_neg hlen]
  · intro sessionId st detail message h
    have hlen : ¬ (filterPayload
        (buildPayload sessionId st.followupQuestions st.answers)).length = 0 := by
      simpa [List.length_eq_zero] using h
    refine ⟨?_, ?_, ?_⟩
    · unfold handleSubmit
      rw [if_neg hlen]
    · unfold handleSubmit
      rw [if_neg hlen]
    · unfold handleSubmitLegacy
      rw [if_neg hlen]

/-- Witness for C9 amended at the answered single-select state, for the
success path of both revisions and for a failure carrying a backend
detail message. -/
theorem c9_witness :
    (handleSubmit "s1" stAnswered .success).2 = ⟨[], [], ""⟩ ∧
    (handleSubmitLegacy "s1" stAnswered .success).2 =
      ⟨stAnswered.followupQuestions, stAnswered.answers, ""⟩ ∧
    (handleSubmit "s1" stAnswered (.failure "quota exceeded" "Request failed")).2 =
      ⟨stAnswered.followupQuestions, stAnswered.answers,
       "Submission failed: quota exceeded. Please try again."⟩ :=
  ⟨(c9_amended_submit_state_transitions.1 "s1" stAnswered (by decide)).1,
   (c9_amended_submit_state_transitions.1 "s1" stAnswered (by decide)).2,
   ((c9_amended_submit_state_transitions.2 "s1" stAnswered "quota exceeded"
      "Request failed" (by decide)).1).trans (by decide)⟩
